import Mathlib

/-!
Verification of the afostoClassifier response-classification engine.

The Go source is shallowly embedded in Lean:
* `float64` / `float32` values are modelled as exact rationals (`ℚ`);
* Go `int` values are modelled as `ℤ` (or `ℕ` where the source keeps them
  non-negative), with Go's truncated `%` modelled by `Int.tmod`;
* the SQLite tables behind the estimator repository are modelled as
  association lists keyed by row id / connection name;
* each Go function becomes a pure Lean function on the corresponding state.

Sources embedded:
* package `psqr` (the P² single-quantile estimator),
* package `database` (`sqliteutil.go`: the snapshot repository),
* package `classifier` (`classifier.go`: the per-connection classifier).
-/

/-- The P² estimator state (Go struct `psqr.Psqr`): tracked quantile `perc`,
observation count, marker heights `q0..q4`, integer marker positions
`n0..n4`, desired marker positions `np0..np4` and their per-observation
increments `dn0..dn4`. -/
structure Psqr where
  perc : ℚ
  count : ℕ
  q0 : ℚ
  q1 : ℚ
  q2 : ℚ
  q3 : ℚ
  q4 : ℚ
  n0 : ℤ
  n1 : ℤ
  n2 : ℤ
  n3 : ℤ
  n4 : ℤ
  np0 : ℚ
  np1 : ℚ
  np2 : ℚ
  np3 : ℚ
  np4 : ℚ
  dn0 : ℚ
  dn1 : ℚ
  dn2 : ℚ
  dn3 : ℚ
  dn4 : ℚ

/-- Go `(*Psqr).Reset`: clears `count`, recomputes `dn` from the quantile,
sets `n[i] = i+1` and `np[i] = dn[i]*4 + 1`.  The marker heights `q[]` and
the quantile `perc` are left untouched. -/
def Psqr.Reset (p : Psqr) : Psqr :=
  let q := p.perc
  { p with
    count := 0
    dn0 := 0, dn1 := q * (1/2), dn2 := q, dn3 := (1 + q) * (1/2), dn4 := 1
    n0 := 1, n1 := 2, n2 := 3, n3 := 4, n4 := 5
    np0 := 0 * 4 + 1
    np1 := (q * (1/2)) * 4 + 1
    np2 := q * 4 + 1
    np3 := ((1 + q) * (1/2)) * 4 + 1
    np4 := 1 * 4 + 1 }

/-- Go `psqr.NewPsqr`: a zero value with `Perc` set, then `Reset`. -/
def NewPsqr (q : ℚ) : Psqr :=
  Psqr.Reset
    { perc := q, count := 0
      q0 := 0, q1 := 0, q2 := 0, q3 := 0, q4 := 0
      n0 := 0, n1 := 0, n2 := 0, n3 := 0, n4 := 0
      np0 := 0, np1 := 0, np2 := 0, np3 := 0, np4 := 0
      dn0 := 0, dn1 := 0, dn2 := 0, dn3 := 0, dn4 := 0 }

/-- Go `(*Psqr).Get`: the current estimate is the middle marker `q[2]`. -/
def Psqr.Get (p : Psqr) : ℚ := p.q2

/-- One step of the bootstrap insertion sort: bubble the element at index 1
down past index 0 (inner loop of the sort in `Add` at `j = 1`). -/
def Psqr.bubble1 (p : Psqr) : Psqr :=
  if p.q0 > p.q1 then { p with q0 := p.q1, q1 := p.q0 } else p

/-- Inner loop of the bootstrap insertion sort started at `j = 2`. -/
def Psqr.bubble2 (p : Psqr) : Psqr :=
  if p.q1 > p.q2 then Psqr.bubble1 { p with q1 := p.q2, q2 := p.q1 } else p

/-- Inner loop of the bootstrap insertion sort started at `j = 3`. -/
def Psqr.bubble3 (p : Psqr) : Psqr :=
  if p.q2 > p.q3 then Psqr.bubble2 { p with q2 := p.q3, q3 := p.q2 } else p

/-- Inner loop of the bootstrap insertion sort started at `j = 4`. -/
def Psqr.bubble4 (p : Psqr) : Psqr :=
  if p.q3 > p.q4 then Psqr.bubble3 { p with q3 := p.q4, q4 := p.q3 } else p

/-- The full bootstrap insertion sort over `q[0..4]` run by `Add` when the
fifth observation arrives (outer loop `i = 1..4`, inner loop unrolled with
its early exit). -/
def Psqr.sortQ (p : Psqr) : Psqr :=
  Psqr.bubble4 (Psqr.bubble3 (Psqr.bubble2 (Psqr.bubble1 p)))

/-- The marker-height adjustment for one interior marker, shared by the three
loop iterations `i = 1, 2, 3` of `Add`.  Arguments are the neighbouring
marker heights `(qm, q, qp1) = (q[i-1], q[i], q[i+1])`, positions
`(nm, nn, np1) = (n[i-1], n[i], n[i+1])` and the desired position `npD =
np[i]`.  Returns the new `(q[i], n[i])`.  Mirrors the guard, the `sign`
function, the eager `parabolic` computation, the acceptance test
`q[i-1] < q' < q[i+1]` and the `linear` fallback of the Go code. -/
def adjustQN (qm q qp1 : ℚ) (nm nn np1 : ℤ) (npD : ℚ) : ℚ × ℤ :=
  let d : ℚ := npD - (nn : ℚ)
  if (1 ≤ d ∧ 1 < np1 - nn) ∨ (d ≤ -1 ∧ nm - nn < -1) then
    let ds : ℤ := if d < 0 then -1 else 1
    let df : ℚ := (ds : ℚ)
    let qparab : ℚ :=
      q + df / ((np1 : ℚ) - (nm : ℚ)) *
        (((nn : ℚ) - (nm : ℚ) + df) * (qp1 - q) / ((np1 : ℚ) - (nn : ℚ)) +
         ((np1 : ℚ) - (nn : ℚ) - df) * (q - qm) / ((nn : ℚ) - (nm : ℚ)))
    let qnew : ℚ :=
      if qm < qparab ∧ qparab < qp1 then qparab
      else if d < 0 then q + df * (qm - q) / ((nm : ℚ) - (nn : ℚ))
      else q + df * (qp1 - q) / ((np1 : ℚ) - (nn : ℚ))
    (qnew, nn + ds)
  else (q, nn)

/-- Adjustment loop iteration `i = 1` of `Add`. -/
def Psqr.adj1 (p : Psqr) : Psqr :=
  let r := adjustQN p.q0 p.q1 p.q2 p.n0 p.n1 p.n2 p.np1
  { p with q1 := r.1, n1 := r.2 }

/-- Adjustment loop iteration `i = 2` of `Add`. -/
def Psqr.adj2 (p : Psqr) : Psqr :=
  let r := adjustQN p.q1 p.q2 p.q3 p.n1 p.n2 p.n3 p.np2
  { p with q2 := r.1, n2 := r.2 }

/-- Adjustment loop iteration `i = 3` of `Add`. -/
def Psqr.adj3 (p : Psqr) : Psqr :=
  let r := adjustQN p.q2 p.q3 p.q4 p.n2 p.n3 p.n4 p.np3
  { p with q3 := r.1, n3 := r.2 }

/-- The loop `for i := k; i < 5; i++ { p.N[i]++ }` of `Add`: increment the
marker positions from cell `k` on (`k ∈ {1, 2, 3, 4}` after clamping, so
`n[0]` is never touched and `n[4]` always is). -/
def Psqr.incNFrom (p : Psqr) (k : ℕ) : Psqr :=
  { p with
    n1 := if k ≤ 1 then p.n1 + 1 else p.n1
    n2 := if k ≤ 2 then p.n2 + 1 else p.n2
    n3 := if k ≤ 3 then p.n3 + 1 else p.n3
    n4 := p.n4 + 1 }

/-- The loop `for i := 0; i < 5; i++ { p.Np[i] += p.Dn[i] }` of `Add`:
advance all desired marker positions. -/
def Psqr.bumpNp (p : Psqr) : Psqr :=
  { p with
    np0 := p.np0 + p.dn0
    np1 := p.np1 + p.dn1
    np2 := p.np2 + p.dn2
    np3 := p.np3 + p.dn3
    np4 := p.np4 + p.dn4 }

/-- The steady-state part of `Add` up to (but not including) the three
marker-height adjustments: increment `count`, locate the cell `k` of the new
observation by linear scan (clamping the extreme markers for `k = 0` and
`k = 5`), shift the marker positions `n[k..4]` and advance all desired
positions. -/
def Psqr.preAdjust (p : Psqr) (v : ℚ) : Psqr :=
  let p0 := { p with count := p.count + 1 }
  if v < p0.q0 then Psqr.bumpNp (Psqr.incNFrom { p0 with q0 := v } 1)
  else if v < p0.q1 then Psqr.bumpNp (Psqr.incNFrom p0 1)
  else if v < p0.q2 then Psqr.bumpNp (Psqr.incNFrom p0 2)
  else if v < p0.q3 then Psqr.bumpNp (Psqr.incNFrom p0 3)
  else if v < p0.q4 then Psqr.bumpNp (Psqr.incNFrom p0 4)
  else Psqr.bumpNp (Psqr.incNFrom { p0 with q4 := v } 4)

/-- Go `(*Psqr).Add`: for the first five observations, store into `q[]` in
arrival order (sorting after the fifth); afterwards run the steady-state
update followed by the three interior marker adjustments.  (The Go method
also returns the running estimate `q[2]`, which every caller in the
repository ignores; the resulting state is returned here and the estimate is
`Psqr.Get` of it.) -/
def Psqr.Add (p : Psqr) (v : ℚ) : Psqr :=
  if p.count < 5 then
    let p1 :=
      if p.count = 0 then { p with q0 := v, count := 1 }
      else if p.count = 1 then { p with q1 := v, count := 2 }
      else if p.count = 2 then { p with q2 := v, count := 3 }
      else if p.count = 3 then { p with q3 := v, count := 4 }
      else { p with q4 := v, count := 5 }
    if p1.count = 5 then Psqr.sortQ p1 else p1
  else
    Psqr.adj3 (Psqr.adj2 (Psqr.adj1 (Psqr.preAdjust p v)))

/-- Feeding a whole stream of observations to the estimator, in order. -/
def Psqr.addAll (p : Psqr) (vs : List ℚ) : Psqr :=
  vs.foldl Psqr.Add p

/-- Marker heights are sorted: `q[0] ≤ q[1] ≤ q[2] ≤ q[3] ≤ q[4]`. -/
def Psqr.SortedQ (p : Psqr) : Prop :=
  p.q0 ≤ p.q1 ∧ p.q1 ≤ p.q2 ∧ p.q2 ≤ p.q3 ∧ p.q3 ≤ p.q4

/-- Marker positions are strictly increasing. -/
def Psqr.StrictN (p : Psqr) : Prop :=
  p.n0 < p.n1 ∧ p.n1 < p.n2 ∧ p.n2 < p.n3 ∧ p.n3 < p.n4

instance (p : Psqr) : Decidable p.SortedQ := by
  unfold Psqr.SortedQ; infer_instance

instance (p : Psqr) : Decidable p.StrictN := by
  unfold Psqr.StrictN; infer_instance

/-! ## The estimator repository (package `database`, `sqliteutil.go`)

The SQLite store is modelled as two association lists: the `psqr` table
(id → row) and the `connection` table ((connectionOrigin, quantile column) →
current snapshot id), together with the next auto-increment id.  SQL
`UPDATE`/`DELETE` act on every row matching the key, `INSERT` appends. -/

/-- Simple association-list lookup (first match wins, like a keyed SQL
`QueryRow`). -/
def alookup {α β : Type} [DecidableEq α] (k : α) : List (α × β) → Option β
  | [] => none
  | (a, b) :: t => if a = k then some b else alookup k t

/-- SQL `UPDATE ... WHERE key = k` (no-op on rows with other keys, updates
every matching row). -/
def aupdate {α β : Type} [DecidableEq α] (k : α) (f : β → β) :
    List (α × β) → List (α × β)
  | [] => []
  | (a, b) :: t =>
      if a = k then (a, f b) :: aupdate k f t else (a, b) :: aupdate k f t

/-- SQL `DELETE FROM ... WHERE key = k` (removes every matching row). -/
def aremove {α β : Type} [DecidableEq α] (k : α) :
    List (α × β) → List (α × β)
  | [] => []
  | (a, b) :: t => if a = k then aremove k t else (a, b) :: aremove k t

/-- A row of the `psqr` table: the nullable `previousPsqrId` column plus the
estimator columns `perc, count, q0..q4, n0..n4, np0..np4, dn0..dn4`
(bundled as a `Psqr` value, whose fields are exactly those columns). -/
structure PsqrRow where
  previousPsqrId : Option ℤ
  val : Psqr

/-- The database state: `psqr` table, `connection` table and the next
auto-increment id for `psqr`. -/
structure Db where
  psqrTable : List (ℤ × PsqrRow)
  connTable : List ((String × ℤ) × ℤ)
  nextId : ℤ

/-- Go's `int(x)` conversion from `float64`: truncation toward zero. -/
def goTrunc (x : ℚ) : ℤ := Int.tdiv x.num x.den

/-- The quantile column selector: the Go code addresses the column
`currentPsqr{int(perc*100)}Id` of the `connection` table. -/
def percColumn (perc : ℚ) : ℤ := goTrunc (perc * 100)

/-- The row contents Go's `GetPsqr` reports when the query finds no row:
every column scans as its zero value. -/
def zeroPsqr : Psqr :=
  { perc := 0, count := 0
    q0 := 0, q1 := 0, q2 := 0, q3 := 0, q4 := 0
    n0 := 0, n1 := 0, n2 := 0, n3 := 0, n4 := 0
    np0 := 0, np1 := 0, np2 := 0, np3 := 0, np4 := 0
    dn0 := 0, dn1 := 0, dn2 := 0, dn3 := 0, dn4 := 0 }

/-- Go `database.GetPsqr` (and its transactional twin): fetch a `psqr` row by
id, returning `(foundId, previousPsqrId, columns)`; all zeros / NULL when
the row does not exist. -/
def Db.GetPsqr (db : Db) (id : ℤ) : ℤ × Option ℤ × Psqr :=
  match alookup id db.psqrTable with
  | none => (0, none, zeroPsqr)
  | some row => (id, row.previousPsqrId, row.val)

/-- Go `database.GetPsqrFromConnection` (and its transactional twin): resolve
the connection's current snapshot id for the quantile column, then fetch the
row; all zeros / NULL when the connection has no record. -/
def Db.GetPsqrFromConnection (db : Db) (connection : String) (perc : ℚ) :
    ℤ × Option ℤ × Psqr :=
  match alookup (connection, percColumn perc) db.connTable with
  | none => (0, none, zeroPsqr)
  | some psqrId => db.GetPsqr psqrId

/-- Go `database.InsertConnectionWithPsqr`: if the connection already has a
current snapshot for this quantile column, overwrite that row's estimator
columns (`UpdatePsqrWithTx`, which leaves `previousPsqrId` alone); otherwise
insert a fresh `psqr` row (NULL `previousPsqrId`) and link the connection to
it.  The caller passes the estimator fields of `p` (with `p.perc` as the
`perc` argument). -/
def Db.InsertConnectionWithPsqr (db : Db) (connection : String) (p : Psqr) :
    Db :=
  match alookup (connection, percColumn p.perc) db.connTable with
  | some psqrId =>
      { db with
        psqrTable := aupdate psqrId (fun r => { r with val := p }) db.psqrTable }
  | none =>
      let id := db.nextId
      { db with
        psqrTable := db.psqrTable ++ [(id, { previousPsqrId := none, val := p })]
        connTable := db.connTable ++ [((connection, percColumn p.perc), id)]
        nextId := id + 1 }

/-- Go `database.SwapPsqr`: atomically duplicate the connection's current
snapshot with `count = 0` (markers and positions retained), repoint the
connection at the duplicate, set the duplicate's `previousPsqrId` to the old
current snapshot, and delete the row the old snapshot's `previousPsqrId`
referenced (if any).  When the current snapshot cannot be found (`perc`
scans as 0) the transaction is rolled back and nothing changes. -/
def Db.SwapPsqr (db : Db) (connection : String) (perc : ℚ) : Db :=
  let cur := db.GetPsqrFromConnection connection perc
  let id := cur.1
  let previousId := cur.2.1
  let v := cur.2.2
  if v.perc = 0 then db
  else
    let newId := db.nextId
    let t1 := db.psqrTable ++
      [(newId, { previousPsqrId := none, val := { v with count := 0 } })]
    let c1 := aupdate (connection, percColumn v.perc) (fun _ => newId) db.connTable
    let t2 := aupdate newId (fun r => { r with previousPsqrId := some id }) t1
    let t3 :=
      match previousId with
      | some pid => aremove pid t2
      | none => t2
    { psqrTable := t3, connTable := c1, nextId := newId + 1 }

/-! ## The per-connection classifier (package `classifier`, `classifier.go`) -/

/-- Go struct `Response`: elapsed milliseconds and HTTP status code. -/
structure Response where
  time : ℤ
  code : ℤ

/-- Go struct `ResponseClassifier` (the mutex and tracing are concurrency /
observability artefacts with no data-flow into the result and are not
modelled). -/
structure ResponseClassifier where
  connectionName : String
  maxPercentileMult : ℚ
  maxAbsoluteTime : ℤ
  include4xx : Bool
  currentResponse : Response
  currentScore : ℚ
  windowSize : ℤ
  lastFiveScores : List ℚ

/-- Go `classifier.NewResponseClassifier`: a negative `maxAbsoluteTime` is
replaced by `1e10`; `lastFiveScores` is `make([]float64, 5)`, a slice of
five zeros; no further validation happens. -/
def NewResponseClassifier (connectionName : String) (maxPercentileMult : ℚ)
    (include4xx : Bool) (windowSize : ℤ) (maxAbsoluteTime : ℤ) :
    ResponseClassifier :=
  { connectionName := connectionName
    maxPercentileMult := maxPercentileMult
    maxAbsoluteTime := if maxAbsoluteTime < 0 then 10 ^ 10 else maxAbsoluteTime
    include4xx := include4xx
    currentResponse := { time := 0, code := 0 }
    currentScore := 1
    windowSize := windowSize
    lastFiveScores := [0, 0, 0, 0, 0] }

/-- Go `(*ResponseClassifier).SetResponse`. -/
def ResponseClassifier.SetResponse (rc : ResponseClassifier) (time code : ℤ) :
    ResponseClassifier :=
  { rc with currentResponse := { time := time, code := code } }

/-- Go `(*ResponseClassifier).applyLowPassFilter`: append the new score to
`lastFiveScores`, drop the oldest entry once the slice exceeds five, and
return the plain average of the slice (together with the updated
classifier). -/
def ResponseClassifier.applyLowPassFilter (rc : ResponseClassifier)
    (score : ℚ) : ResponseClassifier × ℚ :=
  let l0 := rc.lastFiveScores ++ [score]
  let l := if 5 < l0.length then l0.drop 1 else l0
  let average := l.sum / (l.length : ℚ)
  ({ rc with lastFiveScores := l }, average)

/-- Go `(*ResponseClassifier).getPsqr`: load the connection's current
snapshot; when nothing is stored (`foundPerc == 0`) report id `-1`, no
previous id and a fresh estimator; otherwise copy `Count, Q, N, Np, Dn` from
the row onto a fresh estimator for `perc` (so the in-memory `Perc` is the
requested quantile, not the stored column). -/
def ResponseClassifier.getPsqr (rc : ResponseClassifier) (db : Db)
    (perc : ℚ) : ℤ × Option ℤ × Psqr :=
  let r := db.GetPsqrFromConnection rc.connectionName perc
  if r.2.2.perc = 0 then (-1, none, NewPsqr perc)
  else (r.1, r.2.1, { r.2.2 with perc := perc })

/-- Go `(*ResponseClassifier).getPreviousPsqr`: fetch a snapshot by id; when
the row is missing this degenerates to `NewPsqr 0`, otherwise the copied
fields reproduce the stored row exactly. -/
def ResponseClassifier.getPreviousPsqr (_rc : ResponseClassifier) (db : Db)
    (id : ℤ) : Psqr :=
  let r := db.GetPsqr id
  if r.2.2.perc = 0 then NewPsqr 0 else r.2.2

/-- The blended percentile estimate of `Classify`: the current window's
`q[2]`, blended with the previous window's whenever a previous snapshot id
is linked, with weights `w2 = (count mod windowSize + 1) / windowSize` and
`w1 = 1 - w2`. -/
def ResponseClassifier.blendedP (rc : ResponseClassifier) (db : Db) : ℚ :=
  let r := rc.getPsqr db (19/20)
  let psqrObj := r.2.2
  let p90 := psqrObj.Get
  match r.2.1 with
  | some prevId =>
      let prevP90 := (rc.getPreviousPsqr db prevId).Get
      let n : ℤ := psqrObj.count
      let w2 : ℚ := ((Int.tmod n rc.windowSize + 1 : ℤ) : ℚ) / (rc.windowSize : ℚ)
      let w1 := 1 - w2
      w1 * prevP90 + w2 * p90
  | none => p90

/-- The raw (pre-smoothing) score of `Classify`: `1.0` during cold start
(no previous snapshot and at most five observations); otherwise
`(upper - t) / max(upper, t) * 0.5 + 0.5` with
`upper = min(maxPercentileMult * p, maxAbsoluteTime)`. -/
def ResponseClassifier.rawScore (rc : ResponseClassifier) (db : Db) : ℚ :=
  let r := rc.getPsqr db (19/20)
  if r.2.1 ≠ none ∨ 5 < r.2.2.count then
    let upperLimit := min (rc.maxPercentileMult * rc.blendedP db) (rc.maxAbsoluteTime : ℚ)
    (upperLimit - (rc.currentResponse.time : ℚ)) /
        max upperLimit (rc.currentResponse.time : ℚ) * (1/2) + 1/2
  else 1

/-- Go `(*ResponseClassifier).Classify`.  Error responses (`code ≥ 500`, or
`code ≥ 400` with `include4xx`) short-circuit to score `0.0` without
touching the smoother, the estimator or the database.  Otherwise the raw
score is computed, smoothed, and stored; when `count + 1` is a multiple of
`windowSize` the repository rolls the window (`SwapPsqr`) and the local
estimator is `Reset`; finally, only for `code < 400`, the observation is
added to the estimator and the snapshot upserted.  The Go return value is
the resulting `currentScore`.  `classifyMain` is everything after the error
short-circuit. -/
def ResponseClassifier.classifyMain (rc : ResponseClassifier) (db : Db) :
    ResponseClassifier × Db :=
  let percentile : ℚ := 19/20
  let r := rc.getPsqr db percentile
  let psqrObj := r.2.2
  let score := rc.rawScore db
  let s := rc.applyLowPassFilter score
  let rc2 := { s.1 with currentScore := s.2 }
  let n : ℤ := (psqrObj.count : ℤ) + 1
  let roll :=
    if Int.tmod n rc.windowSize = 0 then
      (db.SwapPsqr rc.connectionName percentile, psqrObj.Reset)
    else (db, psqrObj)
  if rc.currentResponse.code < 400 then
    let p2 := roll.2.Add (rc.currentResponse.time : ℚ)
    (rc2, roll.1.InsertConnectionWithPsqr rc.connectionName p2)
  else (rc2, roll.1)

/-- Go `(*ResponseClassifier).Classify`: the error short-circuit followed by
`classifyMain`. -/
def ResponseClassifier.Classify (rc : ResponseClassifier) (db : Db) :
    ResponseClassifier × Db :=
  if (400 ≤ rc.currentResponse.code ∧ rc.include4xx) ∨
      500 ≤ rc.currentResponse.code then
    ({ rc with currentScore := 0 }, db)
  else
    rc.classifyMain db

/-- The estimator state `Classify` loads for the 0.95 quantile (fresh, when
nothing is stored for the connection). -/
def ResponseClassifier.loadedPsqr (rc : ResponseClassifier) (db : Db) : Psqr :=
  (rc.getPsqr db (19/20)).2.2

/-- Pushing a stream of raw scores through the smoother, returning the final
classifier state and the last smoothed value. -/
def ResponseClassifier.runSmoother (rc : ResponseClassifier) (xs : List ℚ) :
    ResponseClassifier × ℚ :=
  xs.foldl (fun acc x => acc.1.applyLowPassFilter x) (rc, rc.currentScore)


/-! ## Estimator lemmas: sortedness and strict marker positions -/

@[simp] theorem Psqr.bubble1_count (p : Psqr) : p.bubble1.count = p.count := by
  unfold Psqr.bubble1; split <;> rfl

@[simp] theorem Psqr.bubble1_n0 (p : Psqr) : p.bubble1.n0 = p.n0 := by
  unfold Psqr.bubble1; split <;> rfl

@[simp] theorem Psqr.bubble1_n1 (p : Psqr) : p.bubble1.n1 = p.n1 := by
  unfold Psqr.bubble1; split <;> rfl

@[simp] theorem Psqr.bubble1_n2 (p : Psqr) : p.bubble1.n2 = p.n2 := by
  unfold Psqr.bubble1; split <;> rfl

@[simp] theorem Psqr.bubble1_n3 (p : Psqr) : p.bubble1.n3 = p.n3 := by
  unfold Psqr.bubble1; split <;> rfl

@[simp] theorem Psqr.bubble1_n4 (p : Psqr) : p.bubble1.n4 = p.n4 := by
  unfold Psqr.bubble1; split <;> rfl

@[simp] theorem Psqr.bubble2_count (p : Psqr) : p.bubble2.count = p.count := by
  unfold Psqr.bubble2; split <;> simp

@[simp] theorem Psqr.bubble2_n0 (p : Psqr) : p.bubble2.n0 = p.n0 := by
  unfold Psqr.bubble2; split <;> simp

@[simp] theorem Psqr.bubble2_n1 (p : Psqr) : p.bubble2.n1 = p.n1 := by
  unfold Psqr.bubble2; split <;> simp

@[simp] theorem Psqr.bubble2_n2 (p : Psqr) : p.bubble2.n2 = p.n2 := by
  unfold Psqr.bubble2; split <;> simp

@[simp] theorem Psqr.bubble2_n3 (p : Psqr) : p.bubble2.n3 = p.n3 := by
  unfold Psqr.bubble2; split <;> simp

@[simp] theorem Psqr.bubble2_n4 (p : Psqr) : p.bubble2.n4 = p.n4 := by
  unfold Psqr.bubble2; split <;> simp

@[simp] theorem Psqr.bubble3_count (p : Psqr) : p.bubble3.count = p.count := by
  unfold Psqr.bubble3; split <;> simp

@[simp] theorem Psqr.bubble3_n0 (p : Psqr) : p.bubble3.n0 = p.n0 := by
  unfold Psqr.bubble3; split <;> simp

@[simp] theorem Psqr.bubble3_n1 (p : Psqr) : p.bubble3.n1 = p.n1 := by
  unfold Psqr.bubble3; split <;> simp

@[simp] theorem Psqr.bubble3_n2 (p : Psqr) : p.bubble3.n2 = p.n2 := by
  unfold Psqr.bubble3; split <;> simp

@[simp] theorem Psqr.bubble3_n3 (p : Psqr) : p.bubble3.n3 = p.n3 := by
  unfold Psqr.bubble3; split <;> simp

@[simp] theorem Psqr.bubble3_n4 (p : Psqr) : p.bubble3.n4 = p.n4 := by
  unfold Psqr.bubble3; split <;> simp

@[simp] theorem Psqr.bubble4_count (p : Psqr) : p.bubble4.count = p.count := by
  unfold Psqr.bubble4; split <;> simp

@[simp] theorem Psqr.bubble4_n0 (p : Psqr) : p.bubble4.n0 = p.n0 := by
  unfold Psqr.bubble4; split <;> simp

@[simp] theorem Psqr.bubble4_n1 (p : Psqr) : p.bubble4.n1 = p.n1 := by
  unfold Psqr.bubble4; split <;> simp

@[simp] theorem Psqr.bubble4_n2 (p : Psqr) : p.bubble4.n2 = p.n2 := by
  unfold Psqr.bubble4; split <;> simp

@[simp] theorem Psqr.bubble4_n3 (p : Psqr) : p.bubble4.n3 = p.n3 := by
  unfold Psqr.bubble4; split <;> simp

@[simp] theorem Psqr.bubble4_n4 (p : Psqr) : p.bubble4.n4 = p.n4 := by
  unfold Psqr.bubble4; split <;> simp

/-- `bubble1` sorts the first two marker heights, fixes the remaining
heights, and keeps any common upper bound of the first two. -/
theorem Psqr.bubble1_spec (p : Psqr) :
    p.bubble1.q0 ≤ p.bubble1.q1 ∧ p.bubble1.q2 = p.q2 ∧
    p.bubble1.q3 = p.q3 ∧ p.bubble1.q4 = p.q4 ∧
    ∀ u, p.q0 ≤ u → p.q1 ≤ u → p.bubble1.q0 ≤ u ∧ p.bubble1.q1 ≤ u := by
  unfold Psqr.bubble1
  split_ifs with h
  · exact ⟨le_of_lt h, rfl, rfl, rfl, fun u h0 h1 => ⟨h1, h0⟩⟩
  · exact ⟨le_of_not_lt h, rfl, rfl, rfl, fun u h0 h1 => ⟨h0, h1⟩⟩

/-- `bubble2` inserts the third marker height into a sorted two-prefix. -/
theorem Psqr.bubble2_spec (p : Psqr) (h : p.q0 ≤ p.q1) :
    (p.bubble2.q0 ≤ p.bubble2.q1 ∧ p.bubble2.q1 ≤ p.bubble2.q2) ∧
    p.bubble2.q3 = p.q3 ∧ p.bubble2.q4 = p.q4 ∧
    ∀ u, p.q0 ≤ u → p.q1 ≤ u → p.q2 ≤ u →
      p.bubble2.q0 ≤ u ∧ p.bubble2.q1 ≤ u ∧ p.bubble2.q2 ≤ u := by
  unfold Psqr.bubble2
  split_ifs with h2
  · obtain ⟨s01, e2, e3, e4, bnd⟩ :=
      Psqr.bubble1_spec { p with q1 := p.q2, q2 := p.q1 }
    refine ⟨⟨s01, ?_⟩, e3, e4, fun u h0 h1 hq2 => ?_⟩
    · rw [e2]; exact (bnd p.q1 h (le_of_lt h2)).2
    · exact ⟨(bnd u h0 hq2).1, (bnd u h0 hq2).2, by rw [e2]; exact h1⟩
  · exact ⟨⟨h, le_of_not_lt h2⟩, rfl, rfl, fun u h0 h1 h2u => ⟨h0, h1, h2u⟩⟩

/-- `bubble3` inserts the fourth marker height into a sorted three-prefix. -/
theorem Psqr.bubble3_spec (p : Psqr) (h0 : p.q0 ≤ p.q1) (h1 : p.q1 ≤ p.q2) :
    (p.bubble3.q0 ≤ p.bubble3.q1 ∧ p.bubble3.q1 ≤ p.bubble3.q2 ∧
      p.bubble3.q2 ≤ p.bubble3.q3) ∧
    p.bubble3.q4 = p.q4 ∧
    ∀ u, p.q0 ≤ u → p.q1 ≤ u → p.q2 ≤ u → p.q3 ≤ u →
      p.bubble3.q0 ≤ u ∧ p.bubble3.q1 ≤ u ∧ p.bubble3.q2 ≤ u ∧
        p.bubble3.q3 ≤ u := by
  unfold Psqr.bubble3
  split_ifs with h3
  · obtain ⟨⟨s01, s12⟩, e3, e4, bnd⟩ :=
      Psqr.bubble2_spec { p with q2 := p.q3, q3 := p.q2 } h0
    refine ⟨⟨s01, s12, ?_⟩, e4, fun u hu0 hu1 hu2 hu3 => ?_⟩
    · rw [e3]
      exact (bnd p.q2 (h0.trans h1) h1 (le_of_lt h3)).2.2
    · obtain ⟨b0, b1, b2⟩ := bnd u hu0 hu1 hu3
      exact ⟨b0, b1, b2, by rw [e3]; exact hu2⟩
  · exact ⟨⟨h0, h1, le_of_not_lt h3⟩, rfl,
      fun u hu0 hu1 hu2 hu3 => ⟨hu0, hu1, hu2, hu3⟩⟩

/-- `bubble4` inserts the fifth marker height into a sorted four-prefix. -/
theorem Psqr.bubble4_spec (p : Psqr) (h0 : p.q0 ≤ p.q1) (h1 : p.q1 ≤ p.q2)
    (h2 : p.q2 ≤ p.q3) : p.bubble4.SortedQ := by
  unfold Psqr.bubble4
  split_ifs with h4
  · obtain ⟨⟨s01, s12, s23⟩, e4, bnd⟩ :=
      Psqr.bubble3_spec { p with q3 := p.q4, q4 := p.q3 } h0 h1
    exact ⟨s01, s12, s23, by
      rw [e4]
      exact (bnd p.q3 (h0.trans (h1.trans h2)) (h1.trans h2) h2 (le_of_lt h4)).2.2.2⟩
  · exact ⟨h0, h1, h2, le_of_not_lt h4⟩

/-- The bootstrap insertion sort sorts the marker heights, whatever their
arrival order. -/
theorem Psqr.sortQ_sorted (p : Psqr) : p.sortQ.SortedQ := by
  unfold Psqr.sortQ
  obtain ⟨s1, -, -, -, -⟩ := Psqr.bubble1_spec p
  obtain ⟨⟨t0, t1⟩, -, -, -⟩ := Psqr.bubble2_spec p.bubble1 s1
  obtain ⟨⟨u0, u1, u2⟩, -, -⟩ := Psqr.bubble3_spec p.bubble1.bubble2 t0 t1
  exact Psqr.bubble4_spec _ u0 u1 u2

/-- The bootstrap sort only touches the marker heights. -/
theorem Psqr.sortQ_frame (p : Psqr) :
    p.sortQ.count = p.count ∧ p.sortQ.n0 = p.n0 ∧ p.sortQ.n1 = p.n1 ∧
    p.sortQ.n2 = p.n2 ∧ p.sortQ.n3 = p.n3 ∧ p.sortQ.n4 = p.n4 := by
  unfold Psqr.sortQ
  simp


/-- The marker position produced by an adjustment step stays strictly
between its neighbours. -/
theorem adjustQN_n_bounds (qm q qp1 : ℚ) (nm nn np1 : ℤ) (npD : ℚ)
    (g1 : nm < nn) (g2 : nn < np1) :
    nm < (adjustQN qm q qp1 nm nn np1 npD).2 ∧
      (adjustQN qm q qp1 nm nn np1 npD).2 < np1 := by
  unfold adjustQN
  simp only []
  by_cases hg : 1 ≤ npD - (nn:ℚ) ∧ 1 < np1 - nn ∨ npD - (nn:ℚ) ≤ -1 ∧ nm - nn < -1
  · rw [if_pos hg]
    dsimp only
    by_cases hd : npD - (nn:ℚ) < 0
    · rw [if_pos hd]
      have hB : nm - nn < -1 := by
        rcases hg with ⟨h1, -⟩ | ⟨-, hB⟩
        · linarith
        · exact hB
      constructor <;> omega
    · rw [if_neg hd]
      have hA : 1 < np1 - nn := by
        rcases hg with ⟨-, hA⟩ | ⟨h1, -⟩
        · exact hA
        · linarith
      constructor <;> omega
  · rw [if_neg hg]
    exact ⟨g1, g2⟩

/-- The marker height produced by an adjustment step stays inside the bracket
formed by its neighbours: the accepted parabolic value by the acceptance
test, the linear fallback because its denominator exceeds one in absolute
value. -/
theorem adjustQN_q_bounds (qm q qp1 : ℚ) (nm nn np1 : ℤ) (npD : ℚ)
    (hq1 : qm ≤ q) (hq2 : q ≤ qp1) :
    qm ≤ (adjustQN qm q qp1 nm nn np1 npD).1 ∧
      (adjustQN qm q qp1 nm nn np1 npD).1 ≤ qp1 := by
  unfold adjustQN
  simp only []
  by_cases hg : 1 ≤ npD - (nn:ℚ) ∧ 1 < np1 - nn ∨ npD - (nn:ℚ) ≤ -1 ∧ nm - nn < -1
  · rw [if_pos hg]
    dsimp only
    by_cases hd : npD - (nn:ℚ) < 0
    · rw [if_pos hd]
      split_ifs with hacc
      · exact ⟨le_of_lt hacc.1, le_of_lt hacc.2⟩
      · have hB : nm - nn < -1 := by
          rcases hg with ⟨h1, -⟩ | ⟨-, hB⟩
          · linarith
          · exact hB
        have hgq : ((nm : ℚ) - (nn : ℚ)) < -1 := by exact_mod_cast hB
        have e : q + ((-1 : ℤ) : ℚ) * (qm - q) / ((nm : ℚ) - (nn : ℚ)) =
            q - (q - qm) / ((nn : ℚ) - (nm : ℚ)) := by
          have hflip : ((nn : ℚ) - (nm : ℚ)) = -(((nm : ℚ) - (nn : ℚ))) := by
            ring
          rw [hflip, div_neg]
          push_cast
          ring
        rw [e]
        have t0 : (0 : ℚ) ≤ (q - qm) / ((nn : ℚ) - (nm : ℚ)) :=
          div_nonneg (by linarith) (by linarith)
        have t1 : (q - qm) / ((nn : ℚ) - (nm : ℚ)) ≤ q - qm :=
          div_le_self (by linarith) (by linarith)
        constructor <;> linarith
    · rw [if_neg hd]
      split_ifs with hacc
      · exact ⟨le_of_lt hacc.1, le_of_lt hacc.2⟩
      · have hA : 1 < np1 - nn := by
          rcases hg with ⟨-, hA⟩ | ⟨h1, -⟩
          · exact hA
          · linarith
        have hgq : (1 : ℚ) < (np1 : ℚ) - (nn : ℚ) := by exact_mod_cast hA
        have e : q + ((1 : ℤ) : ℚ) * (qp1 - q) / ((np1 : ℚ) - (nn : ℚ)) =
            q + (qp1 - q) / ((np1 : ℚ) - (nn : ℚ)) := by
          push_cast
          ring
        rw [e]
        have t0 : (0 : ℚ) ≤ (qp1 - q) / ((np1 : ℚ) - (nn : ℚ)) :=
          div_nonneg (by linarith) (by linarith)
        have t1 : (qp1 - q) / ((np1 : ℚ) - (nn : ℚ)) ≤ qp1 - q :=
          div_le_self (by linarith) (by linarith)
        constructor <;> linarith
  · rw [if_neg hg]
    exact ⟨hq1, hq2⟩

@[simp] theorem Psqr.adj1_count (p : Psqr) : p.adj1.count = p.count := rfl

@[simp] theorem Psqr.adj2_count (p : Psqr) : p.adj2.count = p.count := rfl

@[simp] theorem Psqr.adj3_count (p : Psqr) : p.adj3.count = p.count := rfl

theorem Psqr.incNFrom_strictN (p : Psqr) (k : ℕ) (hn : p.StrictN) :
    (p.incNFrom k).StrictN := by
  obtain ⟨g01, g12, g23, g34⟩ := hn
  unfold Psqr.incNFrom
  simp only [Psqr.StrictN]
  split_ifs <;> refine ⟨?_, ?_, ?_, ?_⟩ <;> omega

theorem Psqr.incNFrom_sorted (p : Psqr) (k : ℕ) (hs : p.SortedQ) :
    (p.incNFrom k).SortedQ := hs

theorem Psqr.bumpNp_strictN (p : Psqr) (hn : p.StrictN) :
    p.bumpNp.StrictN := hn

theorem Psqr.bumpNp_sorted (p : Psqr) (hs : p.SortedQ) :
    p.bumpNp.SortedQ := hs

theorem Psqr.preAdjust_count (p : Psqr) (v : ℚ) :
    (p.preAdjust v).count = p.count + 1 := by
  unfold Psqr.preAdjust
  simp only []
  split_ifs <;> rfl

theorem Psqr.preAdjust_sorted (p : Psqr) (v : ℚ) (hs : p.SortedQ) :
    (p.preAdjust v).SortedQ := by
  obtain ⟨h01, h12, h23, h34⟩ := hs
  unfold Psqr.preAdjust
  simp only []
  split_ifs with h1 h2 h3 h4 h5 <;>
    · apply Psqr.bumpNp_sorted
      apply Psqr.incNFrom_sorted
      exact ⟨by linarith, by linarith, by linarith, by linarith⟩

theorem Psqr.preAdjust_strictN (p : Psqr) (v : ℚ) (hn : p.StrictN) :
    (p.preAdjust v).StrictN := by
  unfold Psqr.preAdjust
  simp only []
  split_ifs <;> exact Psqr.bumpNp_strictN _ (Psqr.incNFrom_strictN _ _ hn)

theorem Psqr.adj1_strictN (p : Psqr) (hn : p.StrictN) : p.adj1.StrictN := by
  have nb := adjustQN_n_bounds p.q0 p.q1 p.q2 p.n0 p.n1 p.n2 p.np1 hn.1 hn.2.1
  unfold Psqr.adj1
  exact ⟨nb.1, nb.2, hn.2.2.1, hn.2.2.2⟩

theorem Psqr.adj2_strictN (p : Psqr) (hn : p.StrictN) : p.adj2.StrictN := by
  have nb := adjustQN_n_bounds p.q1 p.q2 p.q3 p.n1 p.n2 p.n3 p.np2 hn.2.1 hn.2.2.1
  unfold Psqr.adj2
  exact ⟨hn.1, nb.1, nb.2, hn.2.2.2⟩

theorem Psqr.adj1_pres (p : Psqr) (hs : p.SortedQ) (hn : p.StrictN) :
    p.adj1.SortedQ ∧ p.adj1.StrictN := by
  have qb := adjustQN_q_bounds p.q0 p.q1 p.q2 p.n0 p.n1 p.n2 p.np1 hs.1 hs.2.1
  unfold Psqr.adj1
  exact ⟨⟨qb.1, qb.2, hs.2.2.1, hs.2.2.2⟩, Psqr.adj1_strictN p hn⟩

theorem Psqr.adj2_pres (p : Psqr) (hs : p.SortedQ) (hn : p.StrictN) :
    p.adj2.SortedQ ∧ p.adj2.StrictN := by
  have qb := adjustQN_q_bounds p.q1 p.q2 p.q3 p.n1 p.n2 p.n3 p.np2 hs.2.1 hs.2.2.1
  unfold Psqr.adj2
  exact ⟨⟨hs.1, qb.1, qb.2, hs.2.2.2⟩, Psqr.adj2_strictN p hn⟩

theorem Psqr.adj3_pres (p : Psqr) (hs : p.SortedQ) (hn : p.StrictN) :
    p.adj3.SortedQ ∧ p.adj3.StrictN := by
  have qb := adjustQN_q_bounds p.q2 p.q3 p.q4 p.n2 p.n3 p.n4 p.np3 hs.2.2.1 hs.2.2.2
  have nb := adjustQN_n_bounds p.q2 p.q3 p.q4 p.n2 p.n3 p.n4 p.np3 hn.2.2.1 hn.2.2.2
  unfold Psqr.adj3
  exact ⟨⟨hs.1, hs.2.1, qb.1, qb.2⟩, ⟨hn.1, hn.2.1, nb.1, nb.2⟩⟩

/-- The reachable-state invariant of the estimator: marker positions are
strictly increasing, and once five observations have arrived the marker
heights are sorted. -/
def Psqr.Inv (p : Psqr) : Prop :=
  p.StrictN ∧ (5 ≤ p.count → p.SortedQ)

theorem Psqr.Add_inv (p : Psqr) (v : ℚ) (h : p.Inv) : (p.Add v).Inv := by
  obtain ⟨hn, hs5⟩ := h
  unfold Psqr.Add
  by_cases hc : p.count < 5
  · rw [if_pos hc]
    rcases (by omega :
        p.count = 0 ∨ p.count = 1 ∨ p.count = 2 ∨ p.count = 3 ∨ p.count = 4)
      with e | e | e | e | e <;>
      rw [e] <;> norm_num
    · exact ⟨hn, by norm_num⟩
    · exact ⟨hn, by norm_num⟩
    · exact ⟨hn, by norm_num⟩
    · exact ⟨hn, by norm_num⟩
    · obtain ⟨-, e0, e1, e2, e3, e4⟩ :=
        Psqr.sortQ_frame { p with q4 := v, count := 5 }
      refine ⟨?_, fun _ => Psqr.sortQ_sorted _⟩
      unfold Psqr.StrictN
      rw [e0, e1, e2, e3, e4]
      exact hn
  · rw [if_neg hc]
    have hs := hs5 (by omega)
    have h1s := Psqr.preAdjust_sorted p v hs
    have h1n := Psqr.preAdjust_strictN p v hn
    have h2 := Psqr.adj1_pres _ h1s h1n
    have h3 := Psqr.adj2_pres _ h2.1 h2.2
    have h4 := Psqr.adj3_pres _ h3.1 h3.2
    exact ⟨h4.2, fun _ => h4.1⟩

theorem Psqr.addAll_inv (p : Psqr) (vs : List ℚ) (h : p.Inv) :
    (p.addAll vs).Inv := by
  induction vs generalizing p with
  | nil => exact h
  | cons x xs ih => exact ih _ (Psqr.Add_inv p x h)

theorem NewPsqr_inv (q : ℚ) : (NewPsqr q).Inv := by
  refine ⟨⟨?_, ?_, ?_, ?_⟩, fun h5 => ?_⟩ <;>
    simp [NewPsqr, Psqr.Reset] at *

/-! ## Divisions inside `Add` -/

/-- All four denominators an adjustment step can divide by, stated for the
marker-position triple it works on. -/
def divisorsNonzeroAt (nm nn np1 : ℤ) : Prop :=
  ((np1 : ℚ) - (nm : ℚ)) ≠ 0 ∧ ((np1 : ℚ) - (nn : ℚ)) ≠ 0 ∧
    ((nn : ℚ) - (nm : ℚ)) ≠ 0 ∧ ((nm : ℚ) - (nn : ℚ)) ≠ 0

theorem divisorsNonzeroAt_of_lt (a b c : ℤ) (h1 : a < b) (h2 : b < c) :
    divisorsNonzeroAt a b c := by
  have hab : (a : ℚ) < (b : ℚ) := by exact_mod_cast h1
  have hbc : (b : ℚ) < (c : ℚ) := by exact_mod_cast h2
  refine ⟨?_, ?_, ?_, ?_⟩ <;> intro hz <;> linarith

/-- `Add` divides only inside the three marker adjustments (`parabolic` with
denominators `n[i+1]-n[i-1]`, `n[i+1]-n[i]`, `n[i]-n[i-1]`, and `linear`
with denominator `n[i+d]-n[i]`), evaluated on the successive intermediate
states.  This predicate says every such denominator is nonzero for the call
`p.Add v` (during bootstrap, `count < 5`, no division happens at all). -/
def Psqr.AddDivisionsOk (p : Psqr) (v : ℚ) : Prop :=
  p.count < 5 ∨
    (divisorsNonzeroAt (p.preAdjust v).n0 (p.preAdjust v).n1 (p.preAdjust v).n2 ∧
     divisorsNonzeroAt ((p.preAdjust v).adj1).n1 ((p.preAdjust v).adj1).n2
       ((p.preAdjust v).adj1).n3 ∧
     divisorsNonzeroAt (((p.preAdjust v).adj1).adj2).n2
       (((p.preAdjust v).adj1).adj2).n3 (((p.preAdjust v).adj1).adj2).n4)

theorem Psqr.Add_divisionsOk (p : Psqr) (v : ℚ) (hn : p.StrictN) :
    p.AddDivisionsOk v := by
  by_cases hc : p.count < 5
  · exact Or.inl hc
  · right
    have h1 := Psqr.preAdjust_strictN p v hn
    have h2 := Psqr.adj1_strictN _ h1
    have h3 := Psqr.adj2_strictN _ h2
    exact ⟨divisorsNonzeroAt_of_lt _ _ _ h1.1 h1.2.1,
      divisorsNonzeroAt_of_lt _ _ _ h2.2.1 h2.2.2.1,
      divisorsNonzeroAt_of_lt _ _ _ h3.2.2.1 h3.2.2.2⟩


/-! ## Association-list lemmas -/

theorem alookup_append_right {α β : Type} [DecidableEq α] (k : α)
    (l m : List (α × β)) (h : alookup k l = none) :
    alookup k (l ++ m) = alookup k m := by
  induction l with
  | nil => rfl
  | cons a t ih =>
      obtain ⟨a1, a2⟩ := a
      by_cases he : a1 = k
      · simp [alookup, he] at h
      · simp only [alookup, he, List.cons_append, if_false] at h ⊢
        exact ih h

theorem alookup_append_left {α β : Type} [DecidableEq α] (k : α)
    (l m : List (α × β)) (v : β) (h : alookup k l = some v) :
    alookup k (l ++ m) = some v := by
  induction l with
  | nil => simp [alookup] at h
  | cons a t ih =>
      obtain ⟨a1, a2⟩ := a
      by_cases he : a1 = k
      · simp only [alookup, he, List.cons_append, if_true, if_pos] at h ⊢
        exact h
      · simp only [alookup, he, List.cons_append, if_false] at h ⊢
        exact ih h

theorem alookup_aupdate_self {α β : Type} [DecidableEq α] (k : α) (f : β → β)
    (l : List (α × β)) :
    alookup k (aupdate k f l) = (alookup k l).map f := by
  induction l with
  | nil => rfl
  | cons a t ih =>
      obtain ⟨a1, a2⟩ := a
      by_cases he : a1 = k
      · simp [alookup, aupdate, he]
      · simp only [alookup, aupdate, he, if_false]
        exact ih

theorem alookup_aupdate_ne {α β : Type} [DecidableEq α] (k k2 : α)
    (f : β → β) (l : List (α × β)) (h : k2 ≠ k) :
    alookup k (aupdate k2 f l) = alookup k l := by
  induction l with
  | nil => rfl
  | cons a t ih =>
      obtain ⟨a1, a2⟩ := a
      by_cases he : a1 = k2
      · subst he
        simp [aupdate, alookup, h, ih]
      · by_cases hf : a1 = k
        · subst hf
          simp [aupdate, alookup, he]
        · simp [aupdate, alookup, he, hf, ih]

theorem alookup_aremove_self {α β : Type} [DecidableEq α] (k : α)
    (l : List (α × β)) : alookup k (aremove k l) = none := by
  induction l with
  | nil => rfl
  | cons a t ih =>
      obtain ⟨a1, a2⟩ := a
      by_cases he : a1 = k
      · simp only [aremove, he, if_true, if_pos]
        exact ih
      · simp only [aremove, he, if_false, alookup]
        simp [he, ih]

theorem alookup_aremove_ne {α β : Type} [DecidableEq α] (k k2 : α)
    (l : List (α × β)) (h : k2 ≠ k) :
    alookup k (aremove k2 l) = alookup k l := by
  induction l with
  | nil => rfl
  | cons a t ih =>
      obtain ⟨a1, a2⟩ := a
      by_cases he : a1 = k2
      · subst he
        simp [aremove, alookup, h, ih]
      · simp only [aremove, he, if_false, alookup]
        by_cases hf : a1 = k <;> simp [hf, ih]

/-! ## Frame lemmas for the estimator quantile and small equations -/

@[simp] theorem Psqr.Reset_perc (p : Psqr) : p.Reset.perc = p.perc := rfl

@[simp] theorem Psqr.Reset_count (p : Psqr) : p.Reset.count = 0 := rfl

@[simp] theorem Psqr.bubble1_perc (p : Psqr) : p.bubble1.perc = p.perc := by
  unfold Psqr.bubble1; split <;> rfl

@[simp] theorem Psqr.bubble2_perc (p : Psqr) : p.bubble2.perc = p.perc := by
  unfold Psqr.bubble2; split <;> simp

@[simp] theorem Psqr.bubble3_perc (p : Psqr) : p.bubble3.perc = p.perc := by
  unfold Psqr.bubble3; split <;> simp

@[simp] theorem Psqr.bubble4_perc (p : Psqr) : p.bubble4.perc = p.perc := by
  unfold Psqr.bubble4; split <;> simp

@[simp] theorem Psqr.sortQ_perc (p : Psqr) : p.sortQ.perc = p.perc := by
  unfold Psqr.sortQ; simp

@[simp] theorem Psqr.preAdjust_perc (p : Psqr) (v : ℚ) :
    (p.preAdjust v).perc = p.perc := by
  unfold Psqr.preAdjust
  simp only []
  split_ifs <;> rfl

@[simp] theorem Psqr.adj1_perc (p : Psqr) : p.adj1.perc = p.perc := rfl

@[simp] theorem Psqr.adj2_perc (p : Psqr) : p.adj2.perc = p.perc := rfl

@[simp] theorem Psqr.adj3_perc (p : Psqr) : p.adj3.perc = p.perc := rfl

@[simp] theorem Psqr.Add_perc (p : Psqr) (v : ℚ) :
    (p.Add v).perc = p.perc := by
  unfold Psqr.Add
  by_cases hc : p.count < 5
  · rw [if_pos hc]
    rcases (by omega :
        p.count = 0 ∨ p.count = 1 ∨ p.count = 2 ∨ p.count = 3 ∨ p.count = 4)
      with e | e | e | e | e <;> rw [e] <;> norm_num
  · rw [if_neg hc]
    simp

/-- `Add` on an estimator that has seen nothing stores the observation into
`q[0]` verbatim and sets `count` to one. -/
theorem Psqr.Add_of_count_zero (p : Psqr) (v : ℚ) (h : p.count = 0) :
    p.Add v = { p with q0 := v, count := 1 } := by
  simp [Psqr.Add, h]

@[simp] theorem percColumn_95 : percColumn (19/20) = 95 := by
  unfold percColumn goTrunc
  norm_num

/-! ## Equations for the classifier paths -/

/-- Loading the current snapshot when the connection has one stored for the
0.95 quantile. -/
theorem getPsqr_found (rc : ResponseClassifier) (db : Db) (oldId : ℤ)
    (row : PsqrRow)
    (hconn : alookup (rc.connectionName, (95 : ℤ)) db.connTable = some oldId)
    (hrow : alookup oldId db.psqrTable = some row)
    (hperc : row.val.perc = 19/20) :
    rc.getPsqr db (19/20) =
      (oldId, row.previousPsqrId, { row.val with perc := 19/20 }) := by
  unfold ResponseClassifier.getPsqr Db.GetPsqrFromConnection Db.GetPsqr
  rw [percColumn_95, hconn]
  dsimp only
  rw [hrow]
  dsimp only
  rw [hperc]
  norm_num

/-- Loading the current snapshot when the connection is unknown yields a
fresh estimator. -/
theorem getPsqr_missing (rc : ResponseClassifier) (db : Db)
    (hconn : alookup (rc.connectionName, (95 : ℤ)) db.connTable = none) :
    rc.getPsqr db (19/20) = (-1, none, NewPsqr (19/20)) := by
  unfold ResponseClassifier.getPsqr Db.GetPsqrFromConnection
  rw [percColumn_95, hconn]
  dsimp only
  norm_num [zeroPsqr]


/-- Reading the connection row inside `SwapPsqr`. -/
theorem GetPsqrFromConnection_found (db : Db) (name : String) (oldId : ℤ)
    (row : PsqrRow)
    (hconn : alookup (name, (95 : ℤ)) db.connTable = some oldId)
    (hrow : alookup oldId db.psqrTable = some row) :
    db.GetPsqrFromConnection name (19/20) =
      (oldId, row.previousPsqrId, row.val) := by
  unfold Db.GetPsqrFromConnection Db.GetPsqr
  rw [percColumn_95, hconn]
  dsimp only
  rw [hrow]

/-- What `SwapPsqr` does when the connection has a current snapshot: the
connection is repointed at a fresh row whose markers are copied and whose
count is zero, the fresh row's `previousPsqrId` is the just-closed snapshot,
and the row referenced by the old `previousPsqrId` is deleted. -/
theorem SwapPsqr_spec (db : Db) (name : String) (oldId : ℤ) (row : PsqrRow)
    (hconn : alookup (name, (95 : ℤ)) db.connTable = some oldId)
    (hrow : alookup oldId db.psqrTable = some row)
    (hperc : row.val.perc = 19/20)
    (hfresh : alookup db.nextId db.psqrTable = none)
    (hpid : ∀ pid, row.previousPsqrId = some pid → pid ≠ db.nextId) :
    alookup (name, (95 : ℤ)) (db.SwapPsqr name (19/20)).connTable =
      some db.nextId ∧
    alookup db.nextId (db.SwapPsqr name (19/20)).psqrTable =
      some { previousPsqrId := some oldId, val := { row.val with count := 0 } } ∧
    (∀ pid, row.previousPsqrId = some pid →
      alookup pid (db.SwapPsqr name (19/20)).psqrTable = none) ∧
    (db.SwapPsqr name (19/20)).nextId = db.nextId + 1 := by
  unfold Db.SwapPsqr
  rw [GetPsqrFromConnection_found db name oldId row hconn hrow]
  dsimp only
  rw [hperc, percColumn_95, if_neg (by norm_num : ¬(19/20 : ℚ) = 0)]
  dsimp only
  refine ⟨?_, ?_, ?_, rfl⟩
  · rw [alookup_aupdate_self, hconn]
    rfl
  · cases hprev : row.previousPsqrId with
    | none =>
        dsimp only
        rw [alookup_aupdate_self,
          alookup_append_right _ _ _ hfresh]
        simp [alookup]
    | some pid =>
        dsimp only
        rw [alookup_aremove_ne _ _ _ (hpid pid hprev),
          alookup_aupdate_self,
          alookup_append_right _ _ _ hfresh]
        simp [alookup]
  · intro pid hprev
    rw [hprev]
    dsimp only
    exact alookup_aremove_self _ _


/-- The database part of the non-error classification path. -/
theorem classifyMain_snd (rc : ResponseClassifier) (db : Db) :
    (rc.classifyMain db).2 =
      (if rc.currentResponse.code < 400 then
        (if Int.tmod (((rc.getPsqr db (19/20)).2.2.count : ℤ) + 1)
            rc.windowSize = 0 then
          (db.SwapPsqr rc.connectionName (19/20)).InsertConnectionWithPsqr
            rc.connectionName
            (((rc.getPsqr db (19/20)).2.2.Reset).Add
              (rc.currentResponse.time : ℚ))
        else
          db.InsertConnectionWithPsqr rc.connectionName
            ((rc.getPsqr db (19/20)).2.2.Add (rc.currentResponse.time : ℚ)))
      else
        (if Int.tmod (((rc.getPsqr db (19/20)).2.2.count : ℤ) + 1)
            rc.windowSize = 0 then
          db.SwapPsqr rc.connectionName (19/20)
        else db)) := by
  unfold ResponseClassifier.classifyMain
  simp only []
  split_ifs <;> rfl

/-- The classifier part of the non-error classification path: the raw score
is pushed through the smoother and stored. -/
theorem classifyMain_fst (rc : ResponseClassifier) (db : Db) :
    (rc.classifyMain db).1 =
      { (rc.applyLowPassFilter (rc.rawScore db)).1 with
        currentScore := (rc.applyLowPassFilter (rc.rawScore db)).2 } := by
  unfold ResponseClassifier.classifyMain
  simp only []
  split_ifs <;> rfl

/-- The error short-circuit of `Classify`. -/
theorem Classify_error (rc : ResponseClassifier) (db : Db)
    (h : (400 ≤ rc.currentResponse.code ∧ rc.include4xx = true) ∨
      500 ≤ rc.currentResponse.code) :
    rc.Classify db = ({ rc with currentScore := 0 }, db) := by
  unfold ResponseClassifier.Classify
  rw [if_pos h]

/-- `Classify` takes the scoring path whenever the error condition fails. -/
theorem Classify_success (rc : ResponseClassifier) (db : Db)
    (h : ¬((400 ≤ rc.currentResponse.code ∧ rc.include4xx = true) ∨
      500 ≤ rc.currentResponse.code)) :
    rc.Classify db = rc.classifyMain db := by
  unfold ResponseClassifier.Classify
  rw [if_neg h]


/-- Every `Add` increments `count` by exactly one. -/
theorem Psqr.Add_count (p : Psqr) (v : ℚ) : (p.Add v).count = p.count + 1 := by
  unfold Psqr.Add
  by_cases hc : p.count < 5
  · rw [if_pos hc]
    rcases (by omega :
        p.count = 0 ∨ p.count = 1 ∨ p.count = 2 ∨ p.count = 3 ∨ p.count = 4)
      with e | e | e | e | e <;> rw [e] <;> norm_num
    obtain ⟨e0, -⟩ := Psqr.sortQ_frame { p with q4 := v, count := 5 }
    rw [e0]
  · rw [if_neg hc]
    simp [Psqr.preAdjust_count]

/-- `addAll` counts its observations. -/
theorem Psqr.addAll_count (p : Psqr) (vs : List ℚ) :
    (p.addAll vs).count = p.count + vs.length := by
  induction vs generalizing p with
  | nil => rfl
  | cons x xs ih =>
      show (Psqr.addAll (p.Add x) xs).count = p.count + (xs.length + 1)
      rw [ih, Psqr.Add_count]
      omega

/-- Claim C8: `reset()` clears `count`, restores `n = (1,2,3,4,5)`,
`np = 4·dn + 1` and `dn = (0, q/2, q, (1+q)/2, 1)` for the unchanged
quantile `q`, and leaves the marker heights `q[0..4]` exactly as they
were. -/
theorem c8_reset_frame (p : Psqr) :
    p.Reset.count = 0 ∧
    (p.Reset.n0 = 1 ∧ p.Reset.n1 = 2 ∧ p.Reset.n2 = 3 ∧ p.Reset.n3 = 4 ∧
      p.Reset.n4 = 5) ∧
    (p.Reset.np0 = 4 * p.Reset.dn0 + 1 ∧ p.Reset.np1 = 4 * p.Reset.dn1 + 1 ∧
      p.Reset.np2 = 4 * p.Reset.dn2 + 1 ∧ p.Reset.np3 = 4 * p.Reset.dn3 + 1 ∧
      p.Reset.np4 = 4 * p.Reset.dn4 + 1) ∧
    (p.Reset.dn0 = 0 ∧ p.Reset.dn1 = p.perc / 2 ∧ p.Reset.dn2 = p.perc ∧
      p.Reset.dn3 = (1 + p.perc) / 2 ∧ p.Reset.dn4 = 1) ∧
    p.Reset.perc = p.perc ∧
    (p.Reset.q0 = p.q0 ∧ p.Reset.q1 = p.q1 ∧ p.Reset.q2 = p.q2 ∧
      p.Reset.q3 = p.q3 ∧ p.Reset.q4 = p.q4) := by
  refine ⟨rfl, ⟨rfl, rfl, rfl, rfl, rfl⟩, ⟨?_, ?_, ?_, ?_, ?_⟩,
    ⟨rfl, ?_, rfl, ?_, rfl⟩, rfl, ⟨rfl, rfl, rfl, rfl, rfl⟩⟩ <;>
    show _ = _ <;> unfold Psqr.Reset <;> ring

/-- Claim C10 (counterexample): construction performs no validation — a
window size of 0 and a quantile of 2 are accepted and stored verbatim,
yielding usable instances rather than a rejection. -/
theorem c10_counterexample :
    (NewResponseClassifier "c" 1 false 0 100).windowSize = 0 ∧
    (NewPsqr 2).perc = 2 ∧ (NewPsqr 2).count = 0 :=
  ⟨rfl, rfl, rfl⟩

/-- Claim C10 (amended): neither constructor validates its arguments: the
classifier stores any window size (normalising only a negative
`maxAbsoluteTime` to `1e10`), and the estimator accepts any quantile. -/
theorem c10_amended :
    ∀ (name : String) (mult : ℚ) (i4 : Bool) (ws mat : ℤ) (q : ℚ),
      (NewResponseClassifier name mult i4 ws mat).windowSize = ws ∧
      (NewResponseClassifier name mult i4 ws mat).maxAbsoluteTime =
        (if mat < 0 then 10 ^ 10 else mat) ∧
      (NewResponseClassifier name mult i4 ws mat).include4xx = i4 ∧
      (NewPsqr q).perc = q ∧ (NewPsqr q).count = 0 := by
  intro name mult i4 ws mat q
  exact ⟨rfl, rfl, rfl, rfl, rfl⟩

/-- Claim C6 (counterexample): during bootstrap the marker heights are
stored in arrival order, so after adding 2 then 1 the markers are not
sorted — sortedness does not hold after every `add`. -/
theorem c6_counterexample :
    ¬ ((Psqr.Add (Psqr.Add (NewPsqr (19/20)) 2) 1).SortedQ) := by
  norm_num [Psqr.Add, NewPsqr, Psqr.Reset, Psqr.SortedQ]

/-- Claim C6 (amended): for every observation stream fed to a fresh
estimator, the marker heights satisfy `q0 ≤ q1 ≤ q2 ≤ q3 ≤ q4` after every
`add` from the fifth observation on (the first five are stored in arrival
order and sorted when the fifth arrives). -/
theorem c6_amended (q : ℚ) (vs : List ℚ)
    (h : 5 ≤ (Psqr.addAll (NewPsqr q) vs).count) :
    (Psqr.addAll (NewPsqr q) vs).SortedQ :=
  (Psqr.addAll_inv (NewPsqr q) vs (NewPsqr_inv q)).2 h

theorem c6_witness :
    (Psqr.addAll (NewPsqr (19/20)) [3, 1, 4, 1, 5, 9]).SortedQ :=
  c6_amended (19/20) [3, 1, 4, 1, 5, 9]
    (by rw [Psqr.addAll_count]; norm_num [NewPsqr, Psqr.Reset])

/-- Claim C7: on every state reachable by feeding any observation stream to
a fresh estimator, no division inside `add` can divide by zero: all
denominators of the parabolic and linear adjustments are nonzero, thanks to
the guards and the strictly increasing marker positions. -/
theorem c7_divisions_ok (q : ℚ) (vs : List ℚ) (v : ℚ) :
    (Psqr.addAll (NewPsqr q) vs).AddDivisionsOk v :=
  Psqr.Add_divisionsOk _ v (Psqr.addAll_inv (NewPsqr q) vs (NewPsqr_inv q)).1


/-! ## Concrete fixtures used by the end-to-end scenarios -/

/-- An empty database (fresh store, no snapshots). -/
def db0 : Db := { psqrTable := [], connTable := [], nextId := 1 }

/-- The classifier of the end-to-end scenarios: `max_percentile_mult = 1.0`,
`include_4xx = true`, `window_size = 100`, `max_absolute_time = 10000`,
holding its first observation `(elapsed = 50, code = 200)`. -/
def rcC1 : ResponseClassifier :=
  (NewResponseClassifier "c" 1 true 100 10000).SetResponse 50 200

/-- Claim C1 (counterexample): the first observation on a fresh classifier
does not return 1.0. -/
theorem c1_counterexample : (rcC1.Classify db0).1.currentScore ≠ 1 := by
  norm_num [rcC1, db0, ResponseClassifier.Classify,
    ResponseClassifier.classifyMain, ResponseClassifier.SetResponse,
    NewResponseClassifier, ResponseClassifier.getPsqr,
    Db.GetPsqrFromConnection, Db.GetPsqr, alookup, percColumn, goTrunc,
    zeroPsqr, NewPsqr, Psqr.Reset, ResponseClassifier.rawScore,
    ResponseClassifier.blendedP, Psqr.Get,
    ResponseClassifier.applyLowPassFilter, Psqr.Add, Int.tmod,
    Db.SwapPsqr, Db.InsertConnectionWithPsqr, List.sum]

/-- Claim C1 (amended): on the first observation `(elapsed = 50, code =
200)` with no persisted state, the raw cold-start score is 1.0, but the
smoother averages it into the zero-initialised five-slot buffer, so
`Classify` returns 0.2. -/
theorem c1_amended :
    rcC1.rawScore db0 = 1 ∧ (rcC1.Classify db0).1.currentScore = 1/5 := by
  constructor <;>
    norm_num [rcC1, db0, ResponseClassifier.Classify,
      ResponseClassifier.classifyMain, ResponseClassifier.SetResponse,
      NewResponseClassifier, ResponseClassifier.getPsqr,
      Db.GetPsqrFromConnection, Db.GetPsqr, alookup, percColumn, goTrunc,
      zeroPsqr, NewPsqr, Psqr.Reset, ResponseClassifier.rawScore,
      ResponseClassifier.blendedP, Psqr.Get,
      ResponseClassifier.applyLowPassFilter, Psqr.Add, Int.tmod,
      Db.SwapPsqr, Db.InsertConnectionWithPsqr, List.sum]


/-- The database after the first successful observation of `rcC1`. -/
def db1 : Db := (rcC1.Classify db0).2

/-- The classifier of `rcC1` after its first call, now holding the error
observation `(elapsed = 10, code = 503)`. -/
def rcErr : ResponseClassifier := (rcC1.Classify db0).1.SetResponse 10 503

/-- Claim C2 (counterexample): on an error observation the smoother buffer
is left untouched (still holding the raw 1.0 of the previous success), not
shifted by a pushed 0.0 — the error path does not push 0.0 through the
smoother. -/
theorem c2_counterexample :
    (rcErr.Classify db1).1.lastFiveScores = [0, 0, 0, 0, 1] ∧
    (rcErr.applyLowPassFilter 0).1.lastFiveScores = [0, 0, 0, 1, 0] ∧
    [(0 : ℚ), 0, 0, 0, 1] ≠ [0, 0, 0, 1, 0] := by
  refine ⟨?_, ?_, ?_⟩ <;>
    norm_num [rcErr, db1, rcC1, db0, ResponseClassifier.Classify,
      ResponseClassifier.classifyMain, ResponseClassifier.SetResponse,
      NewResponseClassifier, ResponseClassifier.getPsqr,
      Db.GetPsqrFromConnection, Db.GetPsqr, alookup, percColumn, goTrunc,
      zeroPsqr, NewPsqr, Psqr.Reset, ResponseClassifier.rawScore,
      ResponseClassifier.blendedP, Psqr.Get,
      ResponseClassifier.applyLowPassFilter, Psqr.Add, Int.tmod,
      Db.SwapPsqr, Db.InsertConnectionWithPsqr, List.sum]

/-- Claim C2 (amended): for every observation whose status code is ≥ 500,
or ≥ 400 with `include_4xx`, `Classify` sets the current score to 0.0 and
returns immediately: the smoother buffer, the estimator and the database
are all left untouched (no 0.0 is pushed through the smoother). -/
theorem c2_amended (rc : ResponseClassifier) (db : Db)
    (h : 500 ≤ rc.currentResponse.code ∨
      (400 ≤ rc.currentResponse.code ∧ rc.include4xx = true)) :
    rc.Classify db = ({ rc with currentScore := 0 }, db) :=
  Classify_error rc db h.symm

theorem c2_witness :
    rcErr.Classify db1 = ({ rcErr with currentScore := 0 }, db1) :=
  c2_amended rcErr db1
    (Or.inl (by norm_num [rcErr, rcC1, db0, ResponseClassifier.Classify,
      ResponseClassifier.classifyMain, ResponseClassifier.SetResponse,
      NewResponseClassifier]))


/-- A fresh classifier holding a negative-elapsed observation. -/
def rcNeg : ResponseClassifier :=
  (NewResponseClassifier "c" 1 true 100 10000).SetResponse (-7) 200

/-- Claim C9 (counterexample): a negative elapsed time is not clamped — the
estimator absorbs the raw value `-7` (the persisted marker `q0` is `-7`,
not `0`). -/
theorem c9_counterexample :
    (alookup 1 (rcNeg.Classify db0).2.psqrTable).map
        (fun r => (r.val.q0, r.val.count)) = some (-7, 1) ∧
    (-7 : ℚ) < 0 := by
  constructor <;>
    norm_num [rcNeg, db0, ResponseClassifier.Classify,
      ResponseClassifier.classifyMain, ResponseClassifier.SetResponse,
      NewResponseClassifier, ResponseClassifier.getPsqr,
      Db.GetPsqrFromConnection, Db.GetPsqr, alookup, percColumn, goTrunc,
      zeroPsqr, NewPsqr, Psqr.Reset, ResponseClassifier.rawScore,
      ResponseClassifier.blendedP, Psqr.Get,
      ResponseClassifier.applyLowPassFilter, Psqr.Add, Int.tmod,
      Db.SwapPsqr, Db.InsertConnectionWithPsqr, List.sum]

/-- Claim C9 (amended): `Classify` performs no clamping of `elapsed_ms`: on
every successful observation (status below 400) the value handed to the
estimator's `Add`, and then persisted, is the raw `elapsed_ms` — negative
values included — both when the call triggers a rollover (where `Add` runs
on the locally reset estimator after `SwapPsqr`) and when it does not. -/
theorem c9_amended (rc : ResponseClassifier) (db : Db)
    (hcode : rc.currentResponse.code < 400) :
    (rc.Classify db).2 =
      (if Int.tmod (((rc.loadedPsqr db).count : ℤ) + 1)
          rc.windowSize = 0 then
        (db.SwapPsqr rc.connectionName (19/20)).InsertConnectionWithPsqr
          rc.connectionName
          ((rc.loadedPsqr db).Reset.Add (rc.currentResponse.time : ℚ))
      else
        db.InsertConnectionWithPsqr rc.connectionName
          ((rc.loadedPsqr db).Add (rc.currentResponse.time : ℚ))) := by
  have herr : ¬((400 ≤ rc.currentResponse.code ∧ rc.include4xx = true) ∨
      500 ≤ rc.currentResponse.code) := by
    rintro (⟨h4, -⟩ | h5) <;> omega
  rw [Classify_success rc db herr, classifyMain_snd, if_pos hcode]
  unfold ResponseClassifier.loadedPsqr
  rfl

theorem c9_witness :
    (rcNeg.Classify db0).2 =
      (if Int.tmod (((rcNeg.loadedPsqr db0).count : ℤ) + 1)
          rcNeg.windowSize = 0 then
        (db0.SwapPsqr rcNeg.connectionName (19/20)).InsertConnectionWithPsqr
          rcNeg.connectionName
          ((rcNeg.loadedPsqr db0).Reset.Add (rcNeg.currentResponse.time : ℚ))
      else
        db0.InsertConnectionWithPsqr rcNeg.connectionName
          ((rcNeg.loadedPsqr db0).Add (rcNeg.currentResponse.time : ℚ))) :=
  c9_amended rcNeg db0
    (by norm_num [rcNeg, ResponseClassifier.SetResponse,
      NewResponseClassifier])


/-- A fresh classifier with `include_4xx = false` holding the observation
`(elapsed = 10, code = 404)`. -/
def rc404 : ResponseClassifier :=
  (NewResponseClassifier "c" 1 false 100 10000).SetResponse 10 404

/-- Claim C3 (counterexample): with `include_4xx = false` a 404 observation
does go through the scoring path (it is scored like a success, 0.2 here)
but its elapsed time is not added to the estimator: the store stays
empty. -/
theorem c3_counterexample :
    (rc404.Classify db0).2.psqrTable = [] ∧
    (rc404.Classify db0).1.currentScore = 1/5 := by
  constructor <;>
    norm_num [rc404, db0, ResponseClassifier.Classify,
      ResponseClassifier.classifyMain, ResponseClassifier.SetResponse,
      NewResponseClassifier, ResponseClassifier.getPsqr,
      Db.GetPsqrFromConnection, Db.GetPsqr, alookup, percColumn, goTrunc,
      zeroPsqr, NewPsqr, Psqr.Reset, ResponseClassifier.rawScore,
      ResponseClassifier.blendedP, Psqr.Get,
      ResponseClassifier.applyLowPassFilter, Psqr.Add, Int.tmod,
      Db.SwapPsqr, Db.InsertConnectionWithPsqr, List.sum]

/-- Claim C3 (amended): for a 4xx observation, with `include_4xx = false`
the scoring path runs (the raw score is computed and pushed through the
smoother) but the elapsed time is still not added to the estimator — only
codes below 400 are; with `include_4xx = true` the observation scores 0 and
is not added either. -/
theorem c3_amended (rc : ResponseClassifier) (db : Db)
    (h4 : 400 ≤ rc.currentResponse.code)
    (h5 : rc.currentResponse.code < 500) :
    (rc.include4xx = false →
      rc.Classify db =
        ({ (rc.applyLowPassFilter (rc.rawScore db)).1 with
            currentScore := (rc.applyLowPassFilter (rc.rawScore db)).2 },
          if Int.tmod (((rc.loadedPsqr db).count : ℤ) + 1)
              rc.windowSize = 0 then
            db.SwapPsqr rc.connectionName (19/20)
          else db)) ∧
    (rc.include4xx = true →
      rc.Classify db = ({ rc with currentScore := 0 }, db)) := by
  constructor
  · intro hi
    have herr : ¬((400 ≤ rc.currentResponse.code ∧ rc.include4xx = true) ∨
        500 ≤ rc.currentResponse.code) := by
      rintro (⟨-, ht⟩ | hge)
      · rw [hi] at ht
        exact Bool.false_ne_true ht
      · omega
    rw [Classify_success rc db herr, Prod.ext_iff]
    refine ⟨classifyMain_fst rc db, ?_⟩
    rw [classifyMain_snd, if_neg (by omega : ¬ rc.currentResponse.code < 400)]
    rfl
  · intro hi
    exact Classify_error rc db (Or.inl ⟨h4, hi⟩)

theorem c3_witness :
    rc404.Classify db0 =
      ({ (rc404.applyLowPassFilter (rc404.rawScore db0)).1 with
          currentScore := (rc404.applyLowPassFilter (rc404.rawScore db0)).2 },
        if Int.tmod (((rc404.loadedPsqr db0).count : ℤ) + 1)
            rc404.windowSize = 0 then
          db0.SwapPsqr rc404.connectionName (19/20)
        else db0) :=
  (c3_amended rc404 db0
    (by norm_num [rc404, ResponseClassifier.SetResponse,
      NewResponseClassifier])
    (by norm_num [rc404, ResponseClassifier.SetResponse,
      NewResponseClassifier])).1 rfl


/-- Modelled from the spec (§4.3), for comparison only: the smoother the
specification describes, a weighted sum over the buffered scores with
weights `(0.10, 0.15, 0.20, 0.15, 0.10)`, normalised by the sum of the
weights actually applied. -/
def specLowPassFilter (buf : List ℚ) (s : ℚ) : ℚ :=
  let l0 := buf ++ [s]
  let l := if 5 < l0.length then l0.drop 1 else l0
  let w : List ℚ := [1/10, 3/20, 1/5, 3/20, 1/10]
  ((l.zip w).map (fun p => p.1 * p.2)).sum /
    ((l.zip w).map (fun p => p.2)).sum

/-- Claim C4 (counterexample): on a fresh classifier the implemented
smoother returns the plain average 1/5 for a first pushed score of 1.0,
while the weighted-normalised formula of the claim yields 1/7 — the
implemented smoother is not the claimed one. -/
theorem c4_counterexample :
    ((NewResponseClassifier "c" 1 true 100 10000).applyLowPassFilter 1).2 =
      1/5 ∧
    specLowPassFilter
      (NewResponseClassifier "c" 1 true 100 10000).lastFiveScores 1 = 1/7 ∧
    (1 : ℚ)/5 ≠ 1/7 := by
  refine ⟨?_, ?_, ?_⟩ <;>
    norm_num [NewResponseClassifier, ResponseClassifier.applyLowPassFilter,
      specLowPassFilter, List.sum]

/-- Claim C4 (amended): the implemented smoother keeps a buffer of exactly
five scores (zero-initialised at construction): pushing a score appends it,
drops the oldest entry, and returns the plain (uniformly weighted) average
of the five retained scores; a constant stream of five pushes returns that
constant. -/
theorem c4_amended (rc : ResponseClassifier) (s c : ℚ)
    (h : rc.lastFiveScores.length = 5) :
    (rc.applyLowPassFilter s).2 = ((rc.lastFiveScores.drop 1).sum + s) / 5 ∧
    (rc.applyLowPassFilter s).1.lastFiveScores =
      rc.lastFiveScores.drop 1 ++ [s] ∧
    (rc.runSmoother [c, c, c, c, c]).2 = c := by
  obtain ⟨a1, t1, e1⟩ := List.exists_of_length_succ rc.lastFiveScores h
  rw [e1] at h
  have h1 : t1.length = 4 := by simpa using h
  obtain ⟨a2, t2, e2⟩ := List.exists_of_length_succ t1 h1
  rw [e2] at h1
  have h2 : t2.length = 3 := by simpa using h1
  obtain ⟨a3, t3, e3⟩ := List.exists_of_length_succ t2 h2
  rw [e3] at h2
  have h3 : t3.length = 2 := by simpa using h2
  obtain ⟨a4, t4, e4⟩ := List.exists_of_length_succ t3 h3
  rw [e4] at h3
  have h4 : t4.length = 1 := by simpa using h3
  obtain ⟨a5, t5, e5⟩ := List.exists_of_length_succ t4 h4
  rw [e5] at h4
  have h5 : t5 = [] := by
    have : t5.length = 0 := by simpa using h4
    exact List.length_eq_zero.mp this
  have hfull : rc.lastFiveScores = [a1, a2, a3, a4, a5] := by
    rw [e1, e2, e3, e4, e5, h5]
  refine ⟨?_, ?_, ?_⟩ <;>
    simp [ResponseClassifier.applyLowPassFilter,
      ResponseClassifier.runSmoother, hfull, List.sum] <;>
    ring

theorem c4_witness :
    ((NewResponseClassifier "c" 1 true 100 10000).applyLowPassFilter 1).2 =
      (((NewResponseClassifier "c" 1 true 100 10000).lastFiveScores.drop 1).sum
        + 1) / 5 ∧
    ((NewResponseClassifier "c" 1 true 100 10000).applyLowPassFilter
        1).1.lastFiveScores =
      (NewResponseClassifier "c" 1 true 100 10000).lastFiveScores.drop 1 ++
        [1] ∧
    ((NewResponseClassifier "c" 1 true 100 10000).runSmoother
        [1/2, 1/2, 1/2, 1/2, 1/2]).2 = 1/2 :=
  c4_amended (NewResponseClassifier "c" 1 true 100 10000) 1 (1/2)
    (by norm_num [NewResponseClassifier])


/-- Claim C5: rollover.  With a current snapshot stored for the connection
(and a well-formed store: the next id is fresh and the chained previous id
is not the fresh id), (a) `SwapPsqr` repoints the connection at a new
snapshot whose markers are copied and whose count is 0, links its
`previousPsqrId` to the just-closed snapshot and deletes the row the old
`previousPsqrId` referenced; (b) a successful `Classify` call rolls the
window exactly when `count + 1` is divisible by `window_size`, and after
the triggering sample is re-added the new current snapshot has `count = 1`
and is linked to the just-closed snapshot; (c) when `count + 1` is not
divisible by `window_size` no rollover happens: the connection pointer and
the next id are unchanged. -/
theorem c5_rollover (rc : ResponseClassifier) (db : Db) (oldId : ℤ)
    (row : PsqrRow)
    (hconn : alookup (rc.connectionName, (95 : ℤ)) db.connTable = some oldId)
    (hrow : alookup oldId db.psqrTable = some row)
    (hperc : row.val.perc = 19/20)
    (hfresh : alookup db.nextId db.psqrTable = none)
    (hpid : ∀ pid, row.previousPsqrId = some pid → pid ≠ db.nextId)
    (hcode : rc.currentResponse.code < 400) :
    (alookup (rc.connectionName, (95 : ℤ))
        (db.SwapPsqr rc.connectionName (19/20)).connTable =
          some db.nextId ∧
      alookup db.nextId (db.SwapPsqr rc.connectionName (19/20)).psqrTable =
        some { previousPsqrId := some oldId,
               val := { row.val with count := 0 } } ∧
      (∀ pid, row.previousPsqrId = some pid →
        alookup pid (db.SwapPsqr rc.connectionName (19/20)).psqrTable =
          none)) ∧
    (Int.tmod ((row.val.count : ℤ) + 1) rc.windowSize = 0 →
      alookup (rc.connectionName, (95 : ℤ)) (rc.Classify db).2.connTable =
        some db.nextId ∧
      ∃ r2, alookup db.nextId (rc.Classify db).2.psqrTable = some r2 ∧
        r2.previousPsqrId = some oldId ∧ r2.val.count = 1) ∧
    (¬ Int.tmod ((row.val.count : ℤ) + 1) rc.windowSize = 0 →
      (rc.Classify db).2.connTable = db.connTable ∧
      (rc.Classify db).2.nextId = db.nextId) := by
  have herr : ¬((400 ≤ rc.currentResponse.code ∧ rc.include4xx = true) ∨
      500 ≤ rc.currentResponse.code) := by
    rintro (⟨h4, -⟩ | h5) <;> omega
  obtain ⟨sw1, sw2, sw3, sw4⟩ :=
    SwapPsqr_spec db rc.connectionName oldId row hconn hrow hperc hfresh hpid
  refine ⟨⟨sw1, sw2, sw3⟩, ?_, ?_⟩
  · intro hroll
    rw [Classify_success rc db herr, classifyMain_snd,
      getPsqr_found rc db oldId row hconn hrow hperc]
    dsimp only
    rw [if_pos hcode, if_pos hroll]
    unfold Db.InsertConnectionWithPsqr
    rw [show (({ row.val with perc := 19/20 } : Psqr).Reset.Add
        (rc.currentResponse.time : ℚ)).perc = 19/20 by simp]
    rw [percColumn_95, sw1]
    dsimp only
    refine ⟨sw1, ?_⟩
    rw [alookup_aupdate_self, sw2]
    refine ⟨_, rfl, rfl, ?_⟩
    dsimp only
    rw [Psqr.Add_count]
    simp

  · intro hroll
    rw [Classify_success rc db herr, classifyMain_snd,
      getPsqr_found rc db oldId row hconn hrow hperc]
    dsimp only
    rw [if_pos hcode, if_neg hroll]
    unfold Db.InsertConnectionWithPsqr
    rw [show (({ row.val with perc := 19/20 } : Psqr).Add
        (rc.currentResponse.time : ℚ)).perc = 19/20 by simp]
    rw [percColumn_95, hconn]
    dsimp only
    exact ⟨rfl, rfl⟩


/-- A stored window for the rollover scenario: one observation so far. -/
def pW5 : Psqr := { NewPsqr (19/20) with count := 1 }

/-- A store holding that window as the current snapshot of connection
`"c"`. -/
def dbW5 : Db :=
  { psqrTable := [(1, { previousPsqrId := none, val := pW5 })]
    connTable := [(("c", 95), 1)]
    nextId := 2 }

/-- The classifier driving the rollover scenario: window size 2, one more
successful sample triggers the roll. -/
def rcW5 : ResponseClassifier :=
  (NewResponseClassifier "c" 1 true 2 10000).SetResponse 50 200

theorem c5_witness :
    alookup (rcW5.connectionName, (95 : ℤ))
        (rcW5.Classify dbW5).2.connTable = some dbW5.nextId ∧
    ∃ r2, alookup dbW5.nextId (rcW5.Classify dbW5).2.psqrTable = some r2 ∧
      r2.previousPsqrId = some 1 ∧ r2.val.count = 1 :=
  (c5_rollover rcW5 dbW5 1 { previousPsqrId := none, val := pW5 }
    (by norm_num [rcW5, dbW5, NewResponseClassifier,
      ResponseClassifier.SetResponse, alookup])
    (by norm_num [dbW5, alookup])
    (by norm_num [pW5, NewPsqr, Psqr.Reset])
    (by norm_num [dbW5, alookup])
    (by intro pid hp; simp at hp)
    (by norm_num [rcW5, NewResponseClassifier,
      ResponseClassifier.SetResponse])).2.1
    (by norm_num [pW5, rcW5, NewPsqr, Psqr.Reset, NewResponseClassifier,
      ResponseClassifier.SetResponse, Int.tmod])
